import Mathlib

/-!
# HL2RmStreamUnityPlugin: the Streamer

A shallow embedding of `HL2RmStreamUnityPlugin/Streamer.cpp`: the connection
state kept by a `Streamer` object and the member functions that read or change
it (`OnConnectionReceived`, `Send`, `StreamingToggle`, `WriteMatrix4x4`).

Conventions of the embedding.

* An object reference that may be null (`m_streamSocket`, `m_writer`, the
  `wchar_t*` handed to `WriteString`, the result of `QueryInterface`) is an
  `Option`; `none` is the null reference.
* `HRESULT` is an `Int`; `FAILED(hr)` is `hr < 0`.
* `UINT64` values are `Nat` with explicit `% 2 ^ 64` where the arithmetic can wrap.
* A single-precision number is carried by its bit pattern; floating-point
  arithmetic is not interpreted, the numerics routines the source calls are
  parameters (`Env`).
* The calls made on the `DataWriter` are recorded, in order, as a list of
  `WriterOp`; the `m_writer` field itself is the reference together with the
  configuration set on it.
* Debug logging (`OutputDebugStringW`) has no effect on the state and is left out.
-/

namespace Streamer

/-! ## Data model -/

/-- The values of `SocketErrorStatus` the source distinguishes; every status
the source never names is `Other` with its numeric code. -/
inductive SocketErrorStatus where
  | Unknown
  | ConnectionResetByPeer
  | Other (code : Nat)
  deriving DecidableEq, Repr

/-- A thrown `winrt::hresult_error`, identified by the `HRESULT` it carries
(`ex.to_abi()`). -/
structure hresult_error where
  to_abi : Int
  deriving DecidableEq, Repr

/-- `UnicodeEncoding` of a `DataWriter`. -/
inductive UnicodeEncoding where
  | Utf8
  | Utf16LE
  | Utf16BE
  deriving DecidableEq, Repr

/-- `ByteOrder` of a `DataWriter`. -/
inductive ByteOrder where
  | LittleEndian
  | BigEndian
  deriving DecidableEq, Repr

/-- An output stream handle (`IOutputStream`). -/
structure IOutputStream where
  handle : Nat
  deriving DecidableEq, Repr

/-- A connected `StreamSocket`: its handle and its output stream. -/
structure StreamSocket where
  handle : Nat
  OutputStream : IOutputStream
  deriving DecidableEq, Repr

/-- The event arguments of `ConnectionReceived`: they carry the accepted socket. -/
structure StreamSocketListenerConnectionReceivedEventArgs where
  Socket : StreamSocket
  deriving DecidableEq, Repr

/-- A `DataWriter` reference: the stream it writes to and the two properties
the source sets on it. -/
structure DataWriter where
  stream : IOutputStream
  UnicodeEncoding : UnicodeEncoding
  ByteOrder : ByteOrder
  deriving DecidableEq, Repr

/-- A `DataWriter` freshly made over a stream, with the platform defaults
(both are overwritten by `OnConnectionReceived` before any use). -/
def DataWriter.ofStream (stream : IOutputStream) : DataWriter :=
  { stream := stream, UnicodeEncoding := .Utf8, ByteOrder := .BigEndian }

/-- A single-precision float, carried by its bit pattern. -/
structure float32 where
  bits : Nat
  deriving DecidableEq, Repr

/-- The matrix type `float4x4`, fields named as in the source. -/
structure float4x4 where
  m11 : float32
  m12 : float32
  m13 : float32
  m14 : float32
  m21 : float32
  m22 : float32
  m23 : float32
  m24 : float32
  m31 : float32
  m32 : float32
  m33 : float32
  m34 : float32
  m41 : float32
  m42 : float32
  m43 : float32
  m44 : float32
  deriving DecidableEq, Repr

/-- An orientation quaternion. -/
structure quaternion where
  x : float32
  y : float32
  z : float32
  w : float32
  deriving DecidableEq, Repr

/-- A 3-vector (`float3`, `XMFLOAT3`). -/
structure float3 where
  x : float32
  y : float32
  z : float32
  deriving DecidableEq, Repr

/-- A `SpatialLocation` as far as `Send` reads it. -/
structure SpatialLocation where
  Orientation : quaternion
  Position : float3
  deriving DecidableEq, Repr

/-- The struct `ResearchModeSensorTimestamp`; all fields are `UINT64`. -/
structure ResearchModeSensorTimestamp where
  HostTicks : Nat
  HostTicksPerSecond : Nat
  SensorTicks : Nat
  SensorTicksPerSecond : Nat
  deriving DecidableEq, Repr

/-- An `IResearchModeAccelFrame`: the result of `GetCalibratedAccelaration`
(the returned `HRESULT` and the sample written through the out-pointer). -/
structure IResearchModeAccelFrame where
  GetCalibratedAccelaration : Int × float3
  deriving DecidableEq, Repr

/-- An `IResearchModeSensorFrame` as `Send` sees it: the result of
`GetTimeStamp` (the `HRESULT` and the value written through the out-pointer)
and the result of `QueryInterface` for the accelerometer interface (`none`
when the pointer stays null). -/
structure IResearchModeSensorFrame where
  GetTimeStamp : Int × ResearchModeSensorTimestamp
  QueryInterface : Option IResearchModeAccelFrame
  deriving DecidableEq, Repr

/-- The member variables of `Streamer` that `OnConnectionReceived`, `Send` and
`StreamingToggle` read or assign. -/
structure State where
  m_streamSocket : Option StreamSocket
  m_writer : Option DataWriter
  m_writeInProgress : Bool
  m_streamingEnabled : Bool
  deriving DecidableEq, Repr

/-- What `Send` calls outside this file: the locator bound to the world
coordinate system, the time converter, the numerics routines, the socket error
lookup and the text formatter. -/
structure Env where
  /-- The helper `checkAndConvertUnsigned` (`UINT64` to `long long`). -/
  checkAndConvertUnsigned : Nat → Int
  /-- The call `m_locator.TryLocateAtTimestamp(timestamp, m_worldCoordSystem)`,
  as a function of the tick count the timestamp is made from. -/
  TryLocateAtTimestamp : Int → Option SpatialLocation
  make_float4x4_from_quaternion : quaternion → float4x4
  make_float4x4_translation : float3 → float4x4
  /-- The product `operator*` of two `float4x4`. -/
  mul : float4x4 → float4x4 → float4x4
  /-- The call `m_converter.RelativeTicksToAbsoluteTicks(..).count()`. -/
  RelativeTicksToAbsoluteTicks : Int → Int
  /-- The lookup `SocketError::GetStatus` on an `HRESULT`. -/
  GetStatus : Int → SocketErrorStatus
  /-- The expression `sqrt(x * x + y * y + z * z)` on the sample. -/
  magnitude : float3 → float32
  /-- The call `sprintf_s` with the format of the source, as a function of the
  five arguments passed after the format. -/
  sprintf_s : float32 → float32 → float32 → float32 → Nat → String

/-- One call made on `m_writer`. -/
inductive WriterOp where
  | WriteUInt64 (value : Nat)
  | WriteString (value : Option String)
  | WriteSingle (value : float32)
  | StoreAsync
  deriving DecidableEq, Repr

/-- How the calls on the writer inside the `try` block turn out: either none of
them throws, or the call number `k` (counted from 0) throws `ex` after the
calls before it have succeeded. The block makes 19 calls. -/
inductive WriteOutcome where
  | allSucceed
  | throwsAt (k : Fin 19) (ex : hresult_error)
  deriving DecidableEq, Repr

/-- How a call of `Send` ends. -/
inductive Completion where
  /-- Control returns to the caller. -/
  | returned
  /-- An exception leaves `Send`. -/
  | threw (ex : hresult_error)
  /-- An integer division by zero is executed. -/
  | divideByZero
  deriving DecidableEq, Repr

/-- The effect of one call of `Send`: the state afterwards, the calls that were
made on the writer and completed, in order, and how the call ended. -/
structure SendResult where
  state : State
  ops : List WriterOp
  completion : Completion
  deriving DecidableEq, Repr

/-! ## Member functions -/

/-- The cast `(long long)` of a `UINT64`. -/
def toInt64 (v : Nat) : Int :=
  if v % 2 ^ 64 < 2 ^ 63 then ((v % 2 ^ 64 : Nat) : Int) else ((v % 2 ^ 64 : Nat) : Int) - 2 ^ 64

/-- The conversion of a `long long` to the `UINT64` parameter of `WriteUInt64`. -/
def toUInt64 (v : Int) : Nat :=
  (v % 2 ^ 64).toNat

/-- The member `Streamer::OnConnectionReceived`. -/
def OnConnectionReceived (s : State)
    (args : StreamSocketListenerConnectionReceivedEventArgs) : State :=
  -- m_streamSocket = args.Socket();
  let s := { s with m_streamSocket := some args.Socket }
  -- m_writer = args.Socket().OutputStream();
  let s := { s with m_writer := some (DataWriter.ofStream args.Socket.OutputStream) }
  -- m_writer.UnicodeEncoding(UnicodeEncoding::Utf8);
  let s := { s with
    m_writer := s.m_writer.map fun (w : DataWriter) => { w with UnicodeEncoding := .Utf8 } }
  -- m_writer.ByteOrder(ByteOrder::LittleEndian);
  let s := { s with
    m_writer := s.m_writer.map fun (w : DataWriter) => { w with ByteOrder := .LittleEndian } }
  -- m_writeInProgress = false;
  let s := { s with m_writeInProgress := false }
  -- m_streamingEnabled = true;
  { s with m_streamingEnabled := true }

/-- The member `Streamer::StreamingToggle`. -/
def StreamingToggle (s : State) : State :=
  if s.m_streamingEnabled then
    { s with m_streamingEnabled := false }
  else if !s.m_streamingEnabled then
    { s with m_streamingEnabled := true }
  else
    s

/-- The member `Streamer::WriteMatrix4x4`: the sixteen calls it makes on
`m_writer`, in order. -/
def WriteMatrix4x4 (matrix : float4x4) : List WriterOp :=
  [ .WriteSingle matrix.m11, .WriteSingle matrix.m12, .WriteSingle matrix.m13,
    .WriteSingle matrix.m14,
    .WriteSingle matrix.m21, .WriteSingle matrix.m22, .WriteSingle matrix.m23,
    .WriteSingle matrix.m24,
    .WriteSingle matrix.m31, .WriteSingle matrix.m32, .WriteSingle matrix.m33,
    .WriteSingle matrix.m34,
    .WriteSingle matrix.m41, .WriteSingle matrix.m42, .WriteSingle matrix.m43,
    .WriteSingle matrix.m44 ]

/-- The `try` block of `Send` run against an outcome of the writer calls: the
calls that completed and the exception caught, if any. -/
def tryBlock (calls : List WriterOp) : WriteOutcome → List WriterOp × Option hresult_error
  | .allSucceed => (calls, none)
  | .throwsAt k ex => (calls.take k.val, some ex)

/-- The local `printStringAsWString` of `Send`: declared as `nullptr` and never
assigned (the call of `MultiByteToWideChar` passes a buffer size of 0, which
only computes a length). -/
def printStringAsWString : Option String := none

/-- The local `printString` of `Send`: the text `sprintf_s` formats from
the sample, the magnitude and
`(lastSocTickDelta * 1000) / timeStamp.HostTicksPerSecond`, where
`lastSocTickDelta = timeStamp.HostTicks - glastSocTick` with `glastSocTick = 1`,
all in `UINT64`. Only evaluated where `HostTicksPerSecond` is not 0. -/
def printString (env : Env) (timeStamp : ResearchModeSensorTimestamp) (sample : float3) :
    String :=
  let glastSocTick := 1
  let lastSocTickDelta := (timeStamp.HostTicks + 2 ^ 64 - glastSocTick) % 2 ^ 64
  env.sprintf_s sample.x sample.y sample.z (env.magnitude sample)
    ((lastSocTickDelta * 1000) % 2 ^ 64 / timeStamp.HostTicksPerSecond)

/-- The local `rig2worldTransform` of `Send`:
`make_float4x4_from_quaternion(location.Orientation()) * make_float4x4_translation(location.Position())`. -/
def rig2worldTransform (env : Env) (location : SpatialLocation) : float4x4 :=
  env.mul (env.make_float4x4_from_quaternion location.Orientation)
    (env.make_float4x4_translation location.Position)

/-- The local `absoluteTimestamp` of `Send`:
`m_converter.RelativeTicksToAbsoluteTicks(HundredsOfNanoseconds((long long)prevTimestamp)).count()`. -/
def absoluteTimestamp (env : Env) (prevTimestamp : Nat) : Int :=
  env.RelativeTicksToAbsoluteTicks (toInt64 prevTimestamp)

/-- The member `Streamer::Send`, run on state `s` with the frame `pSensorFrame`
and the outcome `w` of the writer calls. The sensor type argument is never
read by the source. -/
def Send (env : Env) (w : WriteOutcome) (s : State)
    (pSensorFrame : IResearchModeSensorFrame) : SendResult :=
  -- if (!m_streamSocket || !m_writer) return;
  if s.m_streamSocket.isNone || s.m_writer.isNone then
    { state := s, ops := [], completion := .returned }
  -- if (!m_streamingEnabled) return;
  else if !s.m_streamingEnabled then
    { state := s, ops := [], completion := .returned }
  -- winrt::check_hresult(pSensorFrame->GetTimeStamp(&rmTimestamp));
  else if pSensorFrame.GetTimeStamp.1 < 0 then
    { state := s, ops := [], completion := .threw ⟨pSensorFrame.GetTimeStamp.1⟩ }
  else
    let rmTimestamp := pSensorFrame.GetTimeStamp.2
    let prevTimestamp := rmTimestamp.HostTicks
    -- auto location = m_locator.TryLocateAtTimestamp(timestamp, m_worldCoordSystem);
    match env.TryLocateAtTimestamp (env.checkAndConvertUnsigned prevTimestamp) with
    -- if (!location) return;
    | none => { state := s, ops := [], completion := .returned }
    | some location =>
      let rig2worldTransform := rig2worldTransform env location
      let absoluteTimestamp := absoluteTimestamp env prevTimestamp
      -- pSensorFrame->GetResolution(&resolution);   (the resolution is never read)
      -- HRESULT hr = pSensorFrame->QueryInterface(IID_PPV_ARGS(&pSensorAccelFrame));
      match pSensorFrame.QueryInterface with
      -- if (!pSensorAccelFrame) return;
      | none => { state := s, ops := [], completion := .returned }
      | some pSensorAccelFrame =>
        -- pSensorFrame->GetTimeStamp(&timeStamp);
        let timeStamp := pSensorFrame.GetTimeStamp.2
        -- hr = pSensorAccelFrame->GetCalibratedAccelaration(&sample);
        let hr := pSensorAccelFrame.GetCalibratedAccelaration.1
        let sample := pSensorAccelFrame.GetCalibratedAccelaration.2
        -- if (FAILED(hr)) return;
        if hr < 0 then
          { state := s, ops := [], completion := .returned }
        -- sprintf_s(..., (lastSocTickDelta * 1000) / timeStamp.HostTicksPerSecond);
        else if timeStamp.HostTicksPerSecond = 0 then
          { state := s, ops := [], completion := .divideByZero }
        else
          let _printString := printString env timeStamp sample
          -- if (m_writeInProgress) return;
          if s.m_writeInProgress then
            { state := s, ops := [], completion := .returned }
          else
            -- m_writeInProgress = true;
            let s := { s with m_writeInProgress := true }
            -- try: WriteUInt64, WriteString, WriteMatrix4x4, StoreAsync
            match tryBlock
                ([.WriteUInt64 (toUInt64 absoluteTimestamp), .WriteString printStringAsWString]
                  ++ WriteMatrix4x4 rig2worldTransform ++ [.StoreAsync]) w with
            | (done, none) => { state := s, ops := done, completion := .returned }
            -- catch (winrt::hresult_error const& ex)
            | (done, some ex) =>
              if env.GetStatus ex.to_abi = SocketErrorStatus.ConnectionResetByPeer then
                -- m_writer == nullptr;        (a comparison, its value is dropped)
                -- m_streamSocket == nullptr;  (a comparison, its value is dropped)
                -- m_writeInProgress = false;
                { state := { s with m_writeInProgress := false }, ops := done,
                  completion := .returned }
              else
                { state := s, ops := done, completion := .returned }

/-! ## Sequences of calls -/

/-- One call made on a `Streamer` from outside: a frame offered to `Send`
(with what the outside answers during that `Send` and the outcome of its writer
calls), a `StreamingToggle`, or an accepted connection. -/
inductive Call where
  | Send (env : Env) (w : WriteOutcome) (pSensorFrame : IResearchModeSensorFrame)
  | StreamingToggle
  | OnConnectionReceived (args : StreamSocketListenerConnectionReceivedEventArgs)

/-- Whether a call is `OnConnectionReceived`. -/
def Call.isOnConnectionReceived : Call → Bool
  | .OnConnectionReceived _ => true
  | _ => false

/-- The state after one call and the writer calls it completed. -/
def step (s : State) : Call → State × List WriterOp
  | .Send env w pSensorFrame =>
    ((Send env w s pSensorFrame).state, (Send env w s pSensorFrame).ops)
  | .StreamingToggle => (StreamingToggle s, [])
  | .OnConnectionReceived args => (OnConnectionReceived s args, [])

/-- The state after a sequence of calls and all writer calls completed during
it, in order. -/
def run (s : State) : List Call → State × List WriterOp
  | [] => (s, [])
  | c :: rest =>
    ((run (step s c).1 rest).1, (step s c).2 ++ (run (step s c).1 rest).2)

/-! ## Conditions on the inputs of `Send` -/

/-- The usable-connection test of `Send`: `m_streamSocket && m_writer`. -/
def hasUsableConnection (s : State) : Bool :=
  s.m_streamSocket.isSome && s.m_writer.isSome

/-- The frame passes every early exit of `Send` between the two state gates
and the in-progress gate: the timestamp is read, the locator gives `location`,
the frame exposes the accelerometer interface `accel`, the sample is read, and
the tick frequency the text divides by is not 0. -/
def FramePasses (env : Env) (f : IResearchModeSensorFrame) (location : SpatialLocation)
    (accel : IResearchModeAccelFrame) : Prop :=
  0 ≤ f.GetTimeStamp.1 ∧
  env.TryLocateAtTimestamp (env.checkAndConvertUnsigned f.GetTimeStamp.2.HostTicks)
    = some location ∧
  f.QueryInterface = some accel ∧
  0 ≤ accel.GetCalibratedAccelaration.1 ∧
  f.GetTimeStamp.2.HostTicksPerSecond ≠ 0

/-- The state is connected, streaming-enabled and idle, and the frame passes:
`Send` reaches the `try` block. -/
def ReachesWrite (env : Env) (s : State) (f : IResearchModeSensorFrame)
    (location : SpatialLocation) (accel : IResearchModeAccelFrame) : Prop :=
  hasUsableConnection s = true ∧ s.m_streamingEnabled = true ∧ s.m_writeInProgress = false ∧
  FramePasses env f location accel

/-- The nineteen writer calls of the `try` block, in program order. -/
def wireCalls (env : Env) (f : IResearchModeSensorFrame) (location : SpatialLocation) :
    List WriterOp :=
  [.WriteUInt64 (toUInt64 (absoluteTimestamp env f.GetTimeStamp.2.HostTicks)),
    .WriteString printStringAsWString]
    ++ WriteMatrix4x4 (rig2worldTransform env location) ++ [.StoreAsync]

/-! ## Concrete inputs -/

/-- A transform with sixteen different components. -/
def sampleTransform : float4x4 :=
  { m11 := ⟨11⟩, m12 := ⟨12⟩, m13 := ⟨13⟩, m14 := ⟨14⟩,
    m21 := ⟨21⟩, m22 := ⟨22⟩, m23 := ⟨23⟩, m24 := ⟨24⟩,
    m31 := ⟨31⟩, m32 := ⟨32⟩, m33 := ⟨33⟩, m34 := ⟨34⟩,
    m41 := ⟨41⟩, m42 := ⟨42⟩, m43 := ⟨43⟩, m44 := ⟨44⟩ }

/-- A location. -/
def sampleLocation : SpatialLocation :=
  { Orientation := ⟨⟨0⟩, ⟨0⟩, ⟨0⟩, ⟨1⟩⟩, Position := ⟨⟨5⟩, ⟨6⟩, ⟨7⟩⟩ }

/-- The `HRESULT` of a connection reset by the peer (0x80072746). -/
def hrConnectionReset : Int := -2147014842

/-- The `HRESULT` `E_FAIL` (0x80004005). -/
def hrFail : Int := -2147467259

/-- An environment: the locator finds `sampleLocation` at every tick count but
0, the transform of every location is `sampleTransform`, the converter adds
1000 ticks. -/
def sampleEnv : Env :=
  { checkAndConvertUnsigned := toInt64
    TryLocateAtTimestamp := fun t => if t = 0 then none else some sampleLocation
    make_float4x4_from_quaternion := fun _ => sampleTransform
    make_float4x4_translation := fun _ => sampleTransform
    mul := fun a _ => a
    RelativeTicksToAbsoluteTicks := fun t => t + 1000
    GetStatus := fun hr =>
      if hr = hrConnectionReset then .ConnectionResetByPeer else .Unknown
    magnitude := fun _ => ⟨9⟩
    sprintf_s := fun _ _ _ _ _ => "####Accel:  0.0000  0.0000  9.8000 9.800000 2" }

/-- An accelerometer frame whose sample is read. -/
def sampleAccel : IResearchModeAccelFrame :=
  { GetCalibratedAccelaration := (0, ⟨⟨0⟩, ⟨0⟩, ⟨98⟩⟩) }

/-- A timestamp: 5000 host ticks at 1000 ticks per second. -/
def sampleTimestamp : ResearchModeSensorTimestamp :=
  { HostTicks := 5000, HostTicksPerSecond := 1000, SensorTicks := 0, SensorTicksPerSecond := 1 }

/-- A frame that passes every exit of `Send`. -/
def sampleFrame : IResearchModeSensorFrame :=
  { GetTimeStamp := (0, sampleTimestamp), QueryInterface := some sampleAccel }

/-- A frame whose `GetTimeStamp` fails with `E_FAIL`. -/
def failingTimestampFrame : IResearchModeSensorFrame :=
  { GetTimeStamp := (hrFail, sampleTimestamp), QueryInterface := some sampleAccel }

/-- A frame that does not expose the accelerometer interface. -/
def noAccelFrame : IResearchModeSensorFrame :=
  { GetTimeStamp := (0, sampleTimestamp), QueryInterface := none }

/-- A frame stamped with host tick 0, where `sampleEnv` finds no location. -/
def unlocatedFrame : IResearchModeSensorFrame :=
  { GetTimeStamp := (0, { sampleTimestamp with HostTicks := 0 }),
    QueryInterface := some sampleAccel }

/-- An accepted socket. -/
def sampleSocket : StreamSocket :=
  { handle := 1, OutputStream := ⟨2⟩ }

/-- The writer `OnConnectionReceived` sets up over `sampleSocket`. -/
def sampleWriter : DataWriter :=
  { stream := ⟨2⟩, UnicodeEncoding := .Utf8, ByteOrder := .LittleEndian }

/-- A connected, streaming-enabled, idle state. -/
def connectedIdle : State :=
  { m_streamSocket := some sampleSocket, m_writer := some sampleWriter,
    m_writeInProgress := false, m_streamingEnabled := true }

/-- A state with no connection. -/
def noSocket : State :=
  { m_streamSocket := none, m_writer := none,
    m_writeInProgress := false, m_streamingEnabled := true }

/-! ## Properties -/

/-- Without a usable connection `Send` returns at its first gate. -/
theorem Send_no_connection (env : Env) (w : WriteOutcome) (s : State)
    (f : IResearchModeSensorFrame) (h : hasUsableConnection s = false) :
    Send env w s f = { state := s, ops := [], completion := .returned } := by
  unfold hasUsableConnection at h
  unfold Send
  cases hs : s.m_streamSocket <;> cases hw : s.m_writer <;> simp_all

/-- With streaming disabled `Send` returns at its first or second gate. -/
theorem Send_streaming_disabled (env : Env) (w : WriteOutcome) (s : State)
    (f : IResearchModeSensorFrame) (h : s.m_streamingEnabled = false) :
    Send env w s f = { state := s, ops := [], completion := .returned } := by
  unfold Send
  simp [h]

/-- With the in-progress flag set, no path through `Send` completes a writer
call or assigns a member variable. -/
theorem Send_write_in_progress (env : Env) (w : WriteOutcome) (s : State)
    (f : IResearchModeSensorFrame) (h : s.m_writeInProgress = true) :
    (Send env w s f).ops = [] ∧ (Send env w s f).state = s := by
  unfold Send
  simp only [h]
  repeat' split
  all_goals simp_all

/-- When the state is connected, streaming-enabled and idle and the frame passes,
`Send` sets the in-progress flag, runs the `try` block on the nineteen writer
calls and, on an exception, runs the `catch` block. -/
theorem Send_reaches_write (env : Env) (w : WriteOutcome) (s : State)
    (f : IResearchModeSensorFrame) (location : SpatialLocation)
    (accel : IResearchModeAccelFrame) (h : ReachesWrite env s f location accel) :
    Send env w s f =
      match tryBlock (wireCalls env f location) w with
      | (done, none) =>
        { state := { s with m_writeInProgress := true }, ops := done, completion := .returned }
      | (done, some ex) =>
        if env.GetStatus ex.to_abi = SocketErrorStatus.ConnectionResetByPeer then
          { state := { s with m_writeInProgress := false }, ops := done,
            completion := .returned }
        else
          { state := { s with m_writeInProgress := true }, ops := done,
            completion := .returned } := by
  obtain ⟨hconn, hen, hidle, hts, hloc, hacc, hsample, htps⟩ := h
  unfold hasUsableConnection at hconn
  have h1 : s.m_streamSocket.isNone = false := by
    cases hs : s.m_streamSocket <;> simp_all
  have h2 : s.m_writer.isNone = false := by
    cases hs : s.m_writer <;> simp_all
  unfold Send
  simp [h1, h2, hen, hidle, Int.not_lt.mpr hts, hloc, hacc, Int.not_lt.mpr hsample, htps,
    wireCalls]

/-- Whenever `Send` completes a writer call, the state was connected,
streaming-enabled and idle and the frame passed every exit. -/
theorem ReachesWrite_of_ops_ne_nil (env : Env) (w : WriteOutcome) (s : State)
    (f : IResearchModeSensorFrame) (h : (Send env w s f).ops ≠ []) :
    ∃ location accel, ReachesWrite env s f location accel := by
  unfold Send at h
  cases hs : s.m_streamSocket with
  | none => simp [hs] at h
  | some sock =>
  cases hw : s.m_writer with
  | none => simp [hs, hw] at h
  | some wr =>
  cases hen : s.m_streamingEnabled with
  | false => simp [hs, hw, hen] at h
  | true =>
  simp only [hs, hw, hen] at h
  by_cases hts : f.GetTimeStamp.1 < 0
  · simp [hts] at h
  · cases hloc : env.TryLocateAtTimestamp (env.checkAndConvertUnsigned f.GetTimeStamp.2.HostTicks)
      with
    | none => simp [hts, hloc] at h
    | some location =>
    cases hacc : f.QueryInterface with
    | none => simp [hts, hloc, hacc] at h
    | some accel =>
    by_cases hsample : accel.GetCalibratedAccelaration.1 < 0
    · simp [hts, hloc, hacc, hsample] at h
    · by_cases htps : f.GetTimeStamp.2.HostTicksPerSecond = 0
      · simp [hts, hloc, hacc, hsample, htps] at h
      · cases hprog : s.m_writeInProgress with
        | true => simp [hts, hloc, hacc, hsample, htps, hprog] at h
        | false =>
          refine ⟨location, accel, ?_, hen, hprog, Int.not_lt.mp hts, hloc, hacc,
            Int.not_lt.mp hsample, htps⟩
          simp [hasUsableConnection, hs, hw]

/-- When `Send` reaches the write and a writer call throws an error whose socket
status is `ConnectionResetByPeer`, the state afterwards is the state before. -/
theorem Send_reset_state (env : Env) (s : State) (f : IResearchModeSensorFrame)
    (location : SpatialLocation) (accel : IResearchModeAccelFrame)
    (k : Fin 19) (ex : hresult_error)
    (h : ReachesWrite env s f location accel)
    (hstatus : env.GetStatus ex.to_abi = SocketErrorStatus.ConnectionResetByPeer) :
    (Send env (.throwsAt k ex) s f).state = s := by
  rw [Send_reaches_write env (.throwsAt k ex) s f location accel h]
  obtain ⟨_, _, hidle, _⟩ := h
  obtain ⟨sock, wr, prog, en⟩ := s
  simp only at hidle
  simp [tryBlock, hstatus, hidle]

/-- `StreamingToggle` does not touch the in-progress flag. -/
theorem StreamingToggle_writeInProgress (s : State) :
    (StreamingToggle s).m_writeInProgress = s.m_writeInProgress := by
  unfold StreamingToggle
  cases h : s.m_streamingEnabled <;> simp

/-- While the in-progress flag is set, a sequence of `Send` and
`StreamingToggle` calls completes no writer call and leaves the flag set. -/
theorem run_write_in_progress (calls : List Call) :
    ∀ s : State, s.m_writeInProgress = true →
      (∀ c ∈ calls, c.isOnConnectionReceived = false) →
      (run s calls).2 = [] ∧ (run s calls).1.m_writeInProgress = true := by
  induction calls with
  | nil => intro s hs _; exact ⟨rfl, hs⟩
  | cons c rest ih =>
    intro s hs hno
    have hrest : ∀ d ∈ rest, d.isOnConnectionReceived = false :=
      fun d hd => hno d (List.mem_cons_of_mem c hd)
    have hc : c.isOnConnectionReceived = false := hno c (List.mem_cons_self c rest)
    cases c with
    | Send env w g =>
      have hsend := Send_write_in_progress env w s g hs
      have hstep : (step s (Call.Send env w g)).1.m_writeInProgress = true := by
        simp [step, hsend.2, hs]
      have htail := ih (step s (Call.Send env w g)).1 hstep hrest
      refine ⟨?_, htail.2⟩
      simp only [run]
      rw [htail.1]
      simp [step, hsend.1]
    | StreamingToggle =>
      have hstep : (step s Call.StreamingToggle).1.m_writeInProgress = true := by
        simp [step, StreamingToggle_writeInProgress, hs]
      have htail := ih (step s Call.StreamingToggle).1 hstep hrest
      refine ⟨?_, htail.2⟩
      simp only [run]
      rw [htail.1]
      simp [step]
    | OnConnectionReceived args =>
      simp [Call.isOnConnectionReceived] at hc

/-! ### Connection acceptance -/

/-- Claim C5. After `OnConnectionReceived`, whatever the state before, the
socket is the socket of the new connection, the writer is over that socket's
output stream with UTF-8 encoding and little-endian byte order, the in-progress
flag is false and the streaming-enabled flag is true. -/
theorem OnConnectionReceived_postcondition (s : State)
    (args : StreamSocketListenerConnectionReceivedEventArgs) :
    OnConnectionReceived s args =
      { m_streamSocket := some args.Socket,
        m_writer := some { stream := args.Socket.OutputStream,
                           UnicodeEncoding := UnicodeEncoding.Utf8,
                           ByteOrder := ByteOrder.LittleEndian },
        m_writeInProgress := false,
        m_streamingEnabled := true } := by
  rfl

/-! ### Streaming control -/

/-- Claim C6. One `StreamingToggle` keeps socket, writer and in-progress flag
and negates the streaming-enabled flag; two in a row give back the state they
started from. -/
theorem StreamingToggle_negates (s : State) :
    StreamingToggle s = { s with m_streamingEnabled := !s.m_streamingEnabled } ∧
    (StreamingToggle s).m_streamSocket = s.m_streamSocket ∧
    (StreamingToggle s).m_writer = s.m_writer ∧
    (StreamingToggle s).m_writeInProgress = s.m_writeInProgress ∧
    StreamingToggle (StreamingToggle s) = s := by
  obtain ⟨sock, wr, prog, en⟩ := s
  cases en <;> simp [StreamingToggle]

/-! ### Drops -/

/-- Claim C2. With the in-progress flag set, `Send` completes no writer call
(so no `StoreAsync` either) and leaves the whole state as it was, for every
frame, every environment and every outcome of the writer calls. -/
theorem Send_single_flight (env : Env) (w : WriteOutcome) (s : State)
    (f : IResearchModeSensorFrame) (h : s.m_writeInProgress = true) :
    (Send env w s f).ops = [] ∧
    WriterOp.StoreAsync ∉ (Send env w s f).ops ∧
    (Send env w s f).state = s := by
  have hsend := Send_write_in_progress env w s f h
  refine ⟨hsend.1, ?_, hsend.2⟩
  rw [hsend.1]
  simp

/-- Witness of `Send_single_flight`: a frame that would pass every exit, offered
while a write is in progress. -/
theorem Send_single_flight_witness :
    ({ connectedIdle with m_writeInProgress := true } : State).m_writeInProgress = true ∧
    ((Send sampleEnv .allSucceed { connectedIdle with m_writeInProgress := true }
        sampleFrame).ops = [] ∧
      WriterOp.StoreAsync ∉ (Send sampleEnv .allSucceed
        { connectedIdle with m_writeInProgress := true } sampleFrame).ops ∧
      (Send sampleEnv .allSucceed { connectedIdle with m_writeInProgress := true }
        sampleFrame).state = { connectedIdle with m_writeInProgress := true }) :=
  ⟨rfl, Send_single_flight sampleEnv .allSucceed
    { connectedIdle with m_writeInProgress := true } sampleFrame rfl⟩

/-- Claim C7. `Send` returns to its caller with no writer call completed and the
state as it was (a) when the socket or the writer is absent or streaming is
disabled, for every frame, also one whose timestamp read would fail; and
(b) when the timestamp is read and either the locator gives no location or the
frame does not expose the accelerometer interface. -/
theorem Send_silent_drop (env : Env) (w : WriteOutcome) (s : State)
    (f : IResearchModeSensorFrame) :
    ((s.m_streamSocket = none ∨ s.m_writer = none ∨ s.m_streamingEnabled = false) →
      Send env w s f = { state := s, ops := [], completion := .returned }) ∧
    (0 ≤ f.GetTimeStamp.1 →
      (env.TryLocateAtTimestamp (env.checkAndConvertUnsigned f.GetTimeStamp.2.HostTicks) = none
        ∨ f.QueryInterface = none) →
      Send env w s f = { state := s, ops := [], completion := .returned }) := by
  constructor
  · rintro (h | h | h)
    · exact Send_no_connection env w s f (by simp [hasUsableConnection, h])
    · exact Send_no_connection env w s f (by simp [hasUsableConnection, h])
    · exact Send_streaming_disabled env w s f h
  · intro hts hdrop
    unfold Send
    rcases hdrop with h | h
    · simp only [h, Int.not_lt.mpr hts]
      repeat' split
      all_goals first | rfl | contradiction
    · simp only [h, Int.not_lt.mpr hts]
      repeat' split
      all_goals first | rfl | contradiction

/-- Witness of `Send_silent_drop`: no connection and a frame whose timestamp read
fails; a connected state and a frame without the accelerometer interface. -/
theorem Send_silent_drop_witness :
    ((noSocket.m_streamSocket = none ∨ noSocket.m_writer = none
        ∨ noSocket.m_streamingEnabled = false) ∧
      failingTimestampFrame.GetTimeStamp.1 < 0 ∧
      Send sampleEnv .allSucceed noSocket failingTimestampFrame
        = { state := noSocket, ops := [], completion := .returned }) ∧
    (0 ≤ noAccelFrame.GetTimeStamp.1 ∧
      (sampleEnv.TryLocateAtTimestamp
          (sampleEnv.checkAndConvertUnsigned noAccelFrame.GetTimeStamp.2.HostTicks) = none
        ∨ noAccelFrame.QueryInterface = none) ∧
      Send sampleEnv .allSucceed connectedIdle noAccelFrame
        = { state := connectedIdle, ops := [], completion := .returned }) :=
  ⟨⟨Or.inl rfl, by decide,
      (Send_silent_drop sampleEnv .allSucceed noSocket failingTimestampFrame).1 (Or.inl rfl)⟩,
    ⟨by decide, Or.inr rfl,
      (Send_silent_drop sampleEnv .allSucceed connectedIdle noAccelFrame).2 (by decide)
        (Or.inr rfl)⟩⟩

/-! ### Timestamp read failure -/

/-- Claim C8, as amended. In a connected, streaming-enabled state, a frame whose
`GetTimeStamp` returns a failure `HRESULT` makes `Send` complete no writer call
and leave the state as it was, and the failure leaves `Send` as a thrown
`hresult_error` carrying that `HRESULT`. -/
theorem Send_timestamp_failure_throws (env : Env) (w : WriteOutcome) (s : State)
    (f : IResearchModeSensorFrame) (hconn : hasUsableConnection s = true)
    (hen : s.m_streamingEnabled = true) (hfail : f.GetTimeStamp.1 < 0) :
    Send env w s f =
      { state := s, ops := [], completion := .threw ⟨f.GetTimeStamp.1⟩ } := by
  unfold hasUsableConnection at hconn
  have h1 : s.m_streamSocket.isNone = false := by
    cases hs : s.m_streamSocket <;> simp_all
  have h2 : s.m_writer.isNone = false := by
    cases hs : s.m_writer <;> simp_all
  unfold Send
  simp [h1, h2, hen, hfail]

/-- Witness of `Send_timestamp_failure_throws`: `E_FAIL` from `GetTimeStamp` in a
connected, idle state. -/
theorem Send_timestamp_failure_throws_witness :
    hasUsableConnection connectedIdle = true ∧
    connectedIdle.m_streamingEnabled = true ∧
    failingTimestampFrame.GetTimeStamp.1 < 0 ∧
    Send sampleEnv .allSucceed connectedIdle failingTimestampFrame =
      { state := connectedIdle, ops := [], completion := .threw ⟨hrFail⟩ } :=
  ⟨rfl, rfl, by decide,
    Send_timestamp_failure_throws sampleEnv .allSucceed connectedIdle failingTimestampFrame
      rfl rfl (by decide)⟩

/-- Claim C8 as stated fails: in a connected, streaming-enabled state, for a frame
whose `GetTimeStamp` fails, `Send` does not return to its caller; an exception
leaves it. -/
theorem Send_timestamp_failure_does_not_return :
    hasUsableConnection connectedIdle = true ∧
    connectedIdle.m_streamingEnabled = true ∧
    failingTimestampFrame.GetTimeStamp.1 < 0 ∧
    (Send sampleEnv .allSucceed connectedIdle failingTimestampFrame).completion
      ≠ Completion.returned ∧
    (Send sampleEnv .allSucceed connectedIdle failingTimestampFrame).completion
      = Completion.threw ⟨hrFail⟩ := by
  decide

/-! ### The wire message -/

/-- When `Send` reaches the write and no writer call throws, the calls completed
on the writer are, in this order and with nothing else: `WriteUInt64` of the
absolute timestamp, `WriteString` of the null pointer, sixteen `WriteSingle` of
the transform components m11, m12, m13, m14, m21, ..., m44, and one
`StoreAsync`. -/
theorem Send_writer_calls (env : Env) (s : State) (f : IResearchModeSensorFrame)
    (location : SpatialLocation) (accel : IResearchModeAccelFrame)
    (h : ReachesWrite env s f location accel) :
    (Send env .allSucceed s f).ops =
      [ WriterOp.WriteUInt64 (toUInt64 (absoluteTimestamp env f.GetTimeStamp.2.HostTicks)),
        WriterOp.WriteString none,
        WriterOp.WriteSingle (rig2worldTransform env location).m11,
        WriterOp.WriteSingle (rig2worldTransform env location).m12,
        WriterOp.WriteSingle (rig2worldTransform env location).m13,
        WriterOp.WriteSingle (rig2worldTransform env location).m14,
        WriterOp.WriteSingle (rig2worldTransform env location).m21,
        WriterOp.WriteSingle (rig2worldTransform env location).m22,
        WriterOp.WriteSingle (rig2worldTransform env location).m23,
        WriterOp.WriteSingle (rig2worldTransform env location).m24,
        WriterOp.WriteSingle (rig2worldTransform env location).m31,
        WriterOp.WriteSingle (rig2worldTransform env location).m32,
        WriterOp.WriteSingle (rig2worldTransform env location).m33,
        WriterOp.WriteSingle (rig2worldTransform env location).m34,
        WriterOp.WriteSingle (rig2worldTransform env location).m41,
        WriterOp.WriteSingle (rig2worldTransform env location).m42,
        WriterOp.WriteSingle (rig2worldTransform env location).m43,
        WriterOp.WriteSingle (rig2worldTransform env location).m44,
        WriterOp.StoreAsync ] := by
  rw [Send_reaches_write env .allSucceed s f location accel h]
  rfl

/-- Claim C3 fails on the code in its second field: for a frame that reaches the
write with no writer call failing (host tick 5000, absolute 6000, a transform
with sixteen different components), the calls completed on the writer are
`WriteUInt64` of the absolute timestamp, `WriteString` of the null pointer, the
sixteen `WriteSingle` in the order m11, ..., m44 and one `StoreAsync`. Order and
count are as claimed, but the sequence is not the claimed one, whose second call
is `WriteString` of the diagnostic text formatted into `printString`. -/
theorem Send_wire_sequence_text_is_null :
    ReachesWrite sampleEnv connectedIdle sampleFrame sampleLocation sampleAccel ∧
    (Send sampleEnv .allSucceed connectedIdle sampleFrame).ops =
      [ WriterOp.WriteUInt64 6000, WriterOp.WriteString none,
        WriterOp.WriteSingle ⟨11⟩, WriterOp.WriteSingle ⟨12⟩, WriterOp.WriteSingle ⟨13⟩,
        WriterOp.WriteSingle ⟨14⟩, WriterOp.WriteSingle ⟨21⟩, WriterOp.WriteSingle ⟨22⟩,
        WriterOp.WriteSingle ⟨23⟩, WriterOp.WriteSingle ⟨24⟩, WriterOp.WriteSingle ⟨31⟩,
        WriterOp.WriteSingle ⟨32⟩, WriterOp.WriteSingle ⟨33⟩, WriterOp.WriteSingle ⟨34⟩,
        WriterOp.WriteSingle ⟨41⟩, WriterOp.WriteSingle ⟨42⟩, WriterOp.WriteSingle ⟨43⟩,
        WriterOp.WriteSingle ⟨44⟩, WriterOp.StoreAsync ] ∧
    (Send sampleEnv .allSucceed connectedIdle sampleFrame).ops ≠
      [ WriterOp.WriteUInt64 6000,
        WriterOp.WriteString (some (printString sampleEnv sampleFrame.GetTimeStamp.2
          sampleAccel.GetCalibratedAccelaration.2)),
        WriterOp.WriteSingle ⟨11⟩, WriterOp.WriteSingle ⟨12⟩, WriterOp.WriteSingle ⟨13⟩,
        WriterOp.WriteSingle ⟨14⟩, WriterOp.WriteSingle ⟨21⟩, WriterOp.WriteSingle ⟨22⟩,
        WriterOp.WriteSingle ⟨23⟩, WriterOp.WriteSingle ⟨24⟩, WriterOp.WriteSingle ⟨31⟩,
        WriterOp.WriteSingle ⟨32⟩, WriterOp.WriteSingle ⟨33⟩, WriterOp.WriteSingle ⟨34⟩,
        WriterOp.WriteSingle ⟨41⟩, WriterOp.WriteSingle ⟨42⟩, WriterOp.WriteSingle ⟨43⟩,
        WriterOp.WriteSingle ⟨44⟩, WriterOp.StoreAsync ] := by
  refine ⟨by unfold ReachesWrite FramePasses; decide, by decide, ?_⟩
  decide

/-- Claim C4 fails on the code: for a frame that reaches the write, `Send` formats
the summary into `printString`, but the pointer it hands to `WriteString` is the
null `printStringAsWString`, not that text. -/
theorem Send_text_field_is_null :
    ReachesWrite sampleEnv connectedIdle sampleFrame sampleLocation sampleAccel ∧
    printString sampleEnv sampleFrame.GetTimeStamp.2 sampleAccel.GetCalibratedAccelaration.2
      = "####Accel:  0.0000  0.0000  9.8000 9.800000 2" ∧
    (Send sampleEnv .allSucceed connectedIdle sampleFrame).ops.get? 1
      = some (WriterOp.WriteString none) ∧
    (Send sampleEnv .allSucceed connectedIdle sampleFrame).ops.get? 1
      ≠ some (WriterOp.WriteString (some (printString sampleEnv sampleFrame.GetTimeStamp.2
          sampleAccel.GetCalibratedAccelaration.2))) := by
  refine ⟨by unfold ReachesWrite FramePasses; decide, rfl, rfl, ?_⟩
  decide

/-! ### Errors of the writer calls -/

/-- Claim C1 fails on the code: after the first writer call fails with a
connection reset by the peer, the socket and the writer are still present (the
usable-connection test still holds), only the in-progress flag is cleared, and
the next `Send` writes a whole message again although no connection was
accepted in between. -/
theorem Send_reset_keeps_connection :
    ReachesWrite sampleEnv connectedIdle sampleFrame sampleLocation sampleAccel ∧
    sampleEnv.GetStatus hrConnectionReset = SocketErrorStatus.ConnectionResetByPeer ∧
    (Send sampleEnv (.throwsAt 0 ⟨hrConnectionReset⟩) connectedIdle sampleFrame).state
      = connectedIdle ∧
    hasUsableConnection
      (Send sampleEnv (.throwsAt 0 ⟨hrConnectionReset⟩) connectedIdle sampleFrame).state
      = true ∧
    (Send sampleEnv .allSucceed
        (Send sampleEnv (.throwsAt 0 ⟨hrConnectionReset⟩) connectedIdle sampleFrame).state
        sampleFrame).ops
      = wireCalls sampleEnv sampleFrame sampleLocation := by
  refine ⟨by unfold ReachesWrite FramePasses; decide, by decide, by decide, by decide, ?_⟩
  decide

/-- Claim C10. When `Send` reaches the write and a writer call throws an error
whose socket status is not `ConnectionResetByPeer`, `Send` returns to its
caller, the socket, the writer and the streaming-enabled flag are as before and
the in-progress flag is true; the calls before the failing one were completed. -/
theorem Send_other_error_keeps_state (env : Env) (s : State) (f : IResearchModeSensorFrame)
    (location : SpatialLocation) (accel : IResearchModeAccelFrame)
    (k : Fin 19) (ex : hresult_error)
    (h : ReachesWrite env s f location accel)
    (hstatus : env.GetStatus ex.to_abi ≠ SocketErrorStatus.ConnectionResetByPeer) :
    (Send env (.throwsAt k ex) s f).completion = Completion.returned ∧
    (Send env (.throwsAt k ex) s f).state.m_streamSocket = s.m_streamSocket ∧
    (Send env (.throwsAt k ex) s f).state.m_writer = s.m_writer ∧
    (Send env (.throwsAt k ex) s f).state.m_streamingEnabled = s.m_streamingEnabled ∧
    (Send env (.throwsAt k ex) s f).state.m_writeInProgress = true ∧
    (Send env (.throwsAt k ex) s f).ops = (wireCalls env f location).take k.val := by
  rw [Send_reaches_write env (.throwsAt k ex) s f location accel h]
  simp [tryBlock, hstatus]

/-- Witness of `Send_other_error_keeps_state`: the sixth writer call fails with
`E_FAIL`, whose socket status is `Unknown`. -/
theorem Send_other_error_keeps_state_witness :
    ReachesWrite sampleEnv connectedIdle sampleFrame sampleLocation sampleAccel ∧
    sampleEnv.GetStatus (hresult_error.mk hrFail).to_abi
      ≠ SocketErrorStatus.ConnectionResetByPeer ∧
    ((Send sampleEnv (.throwsAt 5 ⟨hrFail⟩) connectedIdle sampleFrame).completion
        = Completion.returned ∧
      (Send sampleEnv (.throwsAt 5 ⟨hrFail⟩) connectedIdle sampleFrame).state.m_streamSocket
        = connectedIdle.m_streamSocket ∧
      (Send sampleEnv (.throwsAt 5 ⟨hrFail⟩) connectedIdle sampleFrame).state.m_writer
        = connectedIdle.m_writer ∧
      (Send sampleEnv (.throwsAt 5 ⟨hrFail⟩) connectedIdle sampleFrame).state.m_streamingEnabled
        = connectedIdle.m_streamingEnabled ∧
      (Send sampleEnv (.throwsAt 5 ⟨hrFail⟩) connectedIdle sampleFrame).state.m_writeInProgress
        = true ∧
      (Send sampleEnv (.throwsAt 5 ⟨hrFail⟩) connectedIdle sampleFrame).ops
        = (wireCalls sampleEnv sampleFrame sampleLocation).take (5 : Fin 19).val) :=
  ⟨by unfold ReachesWrite FramePasses; decide, by decide,
    Send_other_error_keeps_state sampleEnv connectedIdle sampleFrame sampleLocation sampleAccel
      5 ⟨hrFail⟩ (by unfold ReachesWrite FramePasses; decide) (by decide)⟩

/-! ### The stall after a successful send -/

/-- Claim C9. When `Send` reaches the write and no writer call throws, the
in-progress flag is true afterwards; from there no sequence of `Send` and
`StreamingToggle` calls (none of them `OnConnectionReceived`) completes any
writer call, and in particular a second `Send` right after the first completes
none. -/
theorem Send_success_stalls_stream (env : Env) (s : State) (f : IResearchModeSensorFrame)
    (location : SpatialLocation) (accel : IResearchModeAccelFrame)
    (calls : List Call)
    (h : ReachesWrite env s f location accel)
    (hno : ∀ c ∈ calls, c.isOnConnectionReceived = false) :
    (Send env .allSucceed s f).ops.length = 19 ∧
    (Send env .allSucceed s f).state.m_writeInProgress = true ∧
    (run (Send env .allSucceed s f).state calls).2 = [] ∧
    (∀ (env2 : Env) (w : WriteOutcome) (g : IResearchModeSensorFrame),
      (Send env2 w (Send env .allSucceed s f).state g).ops = []) := by
  have hflag : (Send env .allSucceed s f).state.m_writeInProgress = true := by
    rw [Send_reaches_write env .allSucceed s f location accel h]
    rfl
  refine ⟨?_, hflag, ?_, ?_⟩
  · rw [Send_reaches_write env .allSucceed s f location accel h]
    rfl
  · exact (run_write_in_progress calls _ hflag hno).1
  · intro env2 w g
    exact (Send_write_in_progress env2 w _ g hflag).1

/-- Witness of `Send_success_stalls_stream`: after one successful send, a second
send, two toggles and a third send complete no writer call. -/
theorem Send_success_stalls_stream_witness :
    ReachesWrite sampleEnv connectedIdle sampleFrame sampleLocation sampleAccel ∧
    (∀ c ∈ [Call.Send sampleEnv .allSucceed sampleFrame, Call.StreamingToggle,
        Call.StreamingToggle, Call.Send sampleEnv .allSucceed sampleFrame],
      c.isOnConnectionReceived = false) ∧
    ((Send sampleEnv .allSucceed connectedIdle sampleFrame).ops.length = 19 ∧
      (Send sampleEnv .allSucceed connectedIdle sampleFrame).state.m_writeInProgress = true ∧
      (run (Send sampleEnv .allSucceed connectedIdle sampleFrame).state
        [Call.Send sampleEnv .allSucceed sampleFrame, Call.StreamingToggle,
          Call.StreamingToggle, Call.Send sampleEnv .allSucceed sampleFrame]).2 = [] ∧
      (∀ (env2 : Env) (w : WriteOutcome) (g : IResearchModeSensorFrame),
        (Send env2 w (Send sampleEnv .allSucceed connectedIdle sampleFrame).state g).ops
          = [])) :=
  ⟨by unfold ReachesWrite FramePasses; decide, by decide,
    Send_success_stalls_stream sampleEnv connectedIdle sampleFrame sampleLocation sampleAccel
      [Call.Send sampleEnv .allSucceed sampleFrame, Call.StreamingToggle,
        Call.StreamingToggle, Call.Send sampleEnv .allSucceed sampleFrame]
      (by unfold ReachesWrite FramePasses; decide) (by decide)⟩

end Streamer
